import Mathlib

/-!
Shallow embedding of the telemetry-peak-analyzer statistics engine:
the table model (`src/telemetry_peak_analyzer/models/__init__.py`),
the `TwoIndexTwoDimensionAnalyzer` operations
(`src/telemetry_peak_analyzer/analyzers/__init__.py`) and the JSON
persistence of global tables (`save_to_json` in
`src/telemetry_peak_analyzer/__init__.py` together with
`get_global_tables_from_file`).

Modelling conventions:
* Python ints are `ℤ`; exact Python float quantities (means, ratios) are `ℚ`.
* `datetime` values are `ℤ` microseconds since the epoch (Python datetimes
  have microsecond resolution and compare chronologically).
* A `dict` of dicts keyed by the two dimension values is a function
  `String → String → Option V`; a key is present exactly when the value is
  `some`.  The per-pair raw local table `field → (value → count)` is embedded
  with its two used projections pre-extracted: the deduplication-index
  sub-table `local_table[self._index[1]]` and the `CROSS_DIMENSIONS`
  sub-tables.  (The outer field dict always contains the index field, so the
  Python truthiness test `if local_table` coincides with presence.)
* `statistics.stdev` returns the square root of the sample variance; the
  embedding stores the variance (`samp_sub_count_var`) and expresses every
  comparison against the standard deviation in exactly equivalent squared
  form over `ℚ`.
* Python `round` is banker's rounding (half to even), embedded exactly on
  rationals by `pyRound`.
-/

/-- Python `round(q)` on an exact rational: nearest integer, ties to even. -/
def pyRound (q : ℚ) : ℤ :=
  let f : ℤ := q.num.fdiv q.den
  if q - f < 1/2 then f
  else if 1/2 < q - f then f + 1
  else if f % 2 = 0 then f else f + 1

/-- Python `round(q, 2)`: rounding to two decimal places, ties to even. -/
def pyRound2 (q : ℚ) : ℚ := (pyRound (q * 100) : ℚ) / 100

/-- Python `x or d` for an optional int `x`: `None` and `0` are falsy and
fall through to the default. -/
def pyOrInt (x : Option ℤ) (d : ℤ) : ℤ :=
  match x with
  | none => d
  | some t => if t = 0 then d else t

/-- The namedtuple `models.GlobalTable` (one baseline entry).  Timestamps are
microseconds since the epoch; every other field is a Python int. -/
structure GlobalTable where
  start_ts : ℤ
  end_ts : ℤ
  window_count : ℤ
  sub_count_avg : ℤ
  sub_count_max : ℤ
  samp_count_avg : ℤ
  samp_count_max : ℤ
  samp_sub_count_avg : ℤ
  samp_sub_count_max : ℤ
  threshold_suggested : ℤ
  deriving DecidableEq, Repr

/-- One raw per-(dim0,dim1) local table, with the two projections the
analyzer reads pre-extracted: `dedup` is `local_table[self._index[1]]`
(sample value → submission count, a dict embedded as an association list)
and `cross` holds the `CROSS_DIMENSIONS` sub-tables. -/
structure LocalTable where
  dedup : List (String × ℤ)
  cross : List (String × List (String × ℤ))
  deriving DecidableEq, Repr

/-- The namedtuple `models.LocalTableStats`.  `samp_sub_count_var` is the
square of the source's `samp_sub_count_std` (see the file header). -/
structure LocalTableStats where
  sub_count : ℤ
  samp_count : ℤ
  samp_sub_count_max : ℤ
  samp_sub_count_mean : ℚ
  samp_sub_count_var : ℚ
  samp_sub_ratio : ℚ
  cross_stats : List (String × List (String × ℤ))
  deriving DecidableEq, Repr

/-- The namedtuple `models.GlobalTableStats`. -/
structure GlobalTableStats where
  samp_sub_count_max : ℤ
  threshold : ℤ
  deriving DecidableEq, Repr

/-- The namedtuple `models.TelemetryPeak`.  As in `LocalTableStats`, the
source's `samp_sub_count_std` is carried as its square. -/
structure TelemetryPeak where
  sub_count : ℤ
  samp_count : ℤ
  samp_sub_count_max : ℤ
  samp_sub_count_mean : ℚ
  samp_sub_count_var : ℚ
  samp_sub_ratio : ℚ
  global_samp_sub_count_max : ℤ
  global_threshold_suggested : ℤ
  deriving DecidableEq, Repr

/-- A dict of dicts keyed by the two dimension values. -/
def Tables (V : Type) : Type := String → String → Option V

/-- The analyzer state used by the embedded operations: the analysis window
`[_start_ts, _end_ts]` and the per-dimension-0-value threshold table
`DIMENSIONS_METADATA[self._dimensions[0]]["threshold"]`. -/
structure Analyzer where
  start_ts : ℤ
  end_ts : ℤ
  dimThresholds : List (String × ℤ)

/-- `TwoIndexTwoDimensionAnalyzer.LOCAL_MIN_COUNT`. -/
def LOCAL_MIN_COUNT : ℤ := 50

/-- `TwoIndexTwoDimensionAnalyzer.PEAK_GLOBAL_COUNT_WEIGHT` (`0.8`). -/
def PEAK_GLOBAL_COUNT_WEIGHT : ℚ := 4/5

/-- `TwoIndexTwoDimensionAnalyzer.PEAK_MIN_SAMP_SUB_RATIO` (`0.5`). -/
def PEAK_MIN_SAMP_SUB_RATIO : ℚ := 1/2

/-- `TwoIndexTwoDimensionAnalyzer._get_dimension_threshold`: the configured
threshold for a dimension value, `0` on `KeyError`. -/
def getDimensionThreshold (thresholds : List (String × ℤ)) (v : String) : ℤ :=
  (thresholds.lookup v).getD 0

/-- `sum(local_table[self._index[1]].values())`. -/
def LocalTable.subCount (t : LocalTable) : ℤ :=
  (t.dedup.map Prod.snd).sum

/-- `len(local_table[self._index[1]])`. -/
def LocalTable.sampCount (t : LocalTable) : ℤ :=
  t.dedup.length

/-- `int(round(sub_count / samp_count))`, with the `ZeroDivisionError`
handler giving `0` (as in `_update_global_table` and `_infer_global_table`). -/
def LocalTable.sampSubCount (t : LocalTable) : ℤ :=
  if t.sampCount = 0 then 0
  else pyRound ((t.subCount : ℚ) / (t.sampCount : ℚ))

/-- `TwoIndexTwoDimensionAnalyzer._is_peak`.  The source's condition
`samp_sub_count_max > samp_sub_count_mean + samp_sub_count_std`, with
`samp_sub_count_std = √samp_sub_count_var ≥ 0`, is expressed in the exactly
equivalent squared form. -/
def is_peak (l : LocalTableStats) (g : GlobalTableStats) : Bool :=
  if l.sub_count < g.threshold then false
  else
    let is_susp_overall_sub_samp_r :=
      decide (PEAK_GLOBAL_COUNT_WEIGHT * (g.samp_sub_count_max : ℚ) < l.samp_sub_count_mean)
    let is_dominant_samp_sub := decide ( PEAK_MIN_SAMP_SUB_RATIO < l.samp_sub_ratio)
    let is_susp_samp_sub_var :=
      decide (l.samp_sub_count_mean < (l.samp_sub_count_max : ℚ) ∧
        ((l.samp_sub_count_max : ℚ) - l.samp_sub_count_mean) ^ 2 > l.samp_sub_count_var)
    is_susp_overall_sub_samp_r || is_dominant_samp_sub || is_susp_samp_sub_var

/-- `TwoIndexTwoDimensionAnalyzer._update_global_table`. -/
def update_global_table (a : Analyzer) (g : GlobalTable) (t : LocalTable) : GlobalTable :=
  let window_count := g.window_count + 1
  let sub_count := t.subCount
  let samp_count := t.sampCount
  let samp_sub_count := t.sampSubCount
  let sub_count_avg :=
    pyRound (((g.sub_count_avg * g.window_count + sub_count : ℤ) : ℚ) / (window_count : ℚ))
  let samp_count_avg :=
    pyRound (((g.samp_count_avg * g.window_count + samp_count : ℤ) : ℚ) / (window_count : ℚ))
  let samp_sub_count_avg :=
    pyRound (((g.samp_sub_count_avg * g.window_count + samp_sub_count : ℤ) : ℚ)
      / (window_count : ℚ))
  { start_ts := g.start_ts
    end_ts := a.end_ts
    window_count := window_count
    sub_count_avg := sub_count_avg
    sub_count_max := max g.sub_count_max sub_count
    samp_count_avg := samp_count_avg
    samp_count_max := max g.samp_count_max samp_count
    samp_sub_count_avg := samp_sub_count_avg
    samp_sub_count_max := max g.samp_sub_count_max samp_sub_count
    threshold_suggested := max g.threshold_suggested sub_count_avg }

/-- `TwoIndexTwoDimensionAnalyzer._infer_global_table`. -/
def infer_global_table (a : Analyzer) (t : LocalTable) (threshold : ℤ) : GlobalTable :=
  { start_ts := a.start_ts
    end_ts := a.end_ts
    window_count := 1
    sub_count_avg := t.subCount
    sub_count_max := t.subCount
    samp_count_avg := t.sampCount
    samp_count_max := t.sampCount
    samp_sub_count_avg := t.sampSubCount
    samp_sub_count_max := t.sampSubCount
    threshold_suggested := max t.subCount threshold }

/-- `TwoIndexTwoDimensionAnalyzer.refresh_global_tables`, pointwise over the
union of the key sets (a pair outside both tables is skipped). -/
def refresh_global_tables (a : Analyzer) (g : Tables GlobalTable)
    (w : Tables LocalTable) : Tables GlobalTable :=
  fun d0 d1 =>
    match g d0 d1, w d0 d1 with
    | some gt, some lt =>
        if a.start_ts < gt.end_ts then some gt
        else some (update_global_table a gt lt)
    | some gt, none => some gt
    | none, some lt =>
        some (infer_global_table a lt (getDimensionThreshold a.dimThresholds d0))
    | none, none => none

/-- `TwoIndexTwoDimensionAnalyzer.get_global_tables_stats`.  The Python
`threshold or global_table.threshold_suggested` is `pyOrInt`. -/
def get_global_tables_stats (g : Tables GlobalTable) (threshold : Option ℤ) :
    Tables GlobalTableStats :=
  fun d0 d1 =>
    (g d0 d1).map fun gt =>
      { samp_sub_count_max := gt.samp_sub_count_max
        threshold := pyOrInt threshold gt.threshold_suggested }

/-- The per-pair body of `TwoIndexTwoDimensionAnalyzer.get_local_tables_stats`:
`statistics.mean`/`max` over the empty sequence raise and are caught to
`0`/`0`; `statistics.stdev` with fewer than two points raises and is caught
to `0` (stored here as variance `0`); the samp-sub ratio is rounded to two
decimals and gated on `sub_count > LOCAL_MIN_COUNT`. -/
def localTableStats (t : LocalTable) : LocalTableStats :=
  let sub_count := t.subCount
  let samp_count := t.sampCount
  let counts := t.dedup.map Prod.snd
  let samp_sub_count_mean : ℚ :=
    if counts.length = 0 then 0 else (counts.sum : ℚ) / (counts.length : ℚ)
  let samp_sub_count_max : ℤ :=
    match counts with
    | [] => 0
    | x :: xs => xs.foldl max x
  let samp_sub_count_var : ℚ :=
    if counts.length < 2 then 0
    else ((counts.map fun x => ((x : ℚ) - samp_sub_count_mean) ^ 2).sum)
      / ((counts.length : ℚ) - 1)
  let samp_sub_ratio : ℚ :=
    if LOCAL_MIN_COUNT < sub_count then
      pyRound2 ((samp_sub_count_max : ℚ) / (sub_count : ℚ))
    else 0
  { sub_count := sub_count
    samp_count := samp_count
    samp_sub_count_max := samp_sub_count_max
    samp_sub_count_mean := samp_sub_count_mean
    samp_sub_count_var := samp_sub_count_var
    samp_sub_ratio := samp_sub_ratio
    cross_stats := t.cross }

/-- `TwoIndexTwoDimensionAnalyzer.get_local_tables_stats`. -/
def get_local_tables_stats (w : Tables LocalTable) : Tables LocalTableStats :=
  fun d0 d1 => (w d0 d1).map localTableStats

/-- `TwoIndexTwoDimensionAnalyzer.get_peaks`: derive the two stats tables,
then emit a `TelemetryPeak` for exactly the pairs that have both stats and
pass `_is_peak` (a `KeyError` on the global side skips the pair). -/
def get_peaks (g : Tables GlobalTable) (w : Tables LocalTable)
    (threshold : Option ℤ) : Tables TelemetryPeak :=
  fun d0 d1 =>
    match get_local_tables_stats w d0 d1, get_global_tables_stats g threshold d0 d1 with
    | some l, some gs =>
        if is_peak l gs then
          some { sub_count := l.sub_count
                 samp_count := l.samp_count
                 samp_sub_count_max := l.samp_sub_count_max
                 samp_sub_count_mean := l.samp_sub_count_mean
                 samp_sub_count_var := l.samp_sub_count_var
                 samp_sub_ratio := l.samp_sub_ratio
                 global_samp_sub_count_max := gs.samp_sub_count_max
                 global_threshold_suggested := gs.threshold }
        else none
    | _, _ => none

/-- One cell of a persisted 10-element row: `save_to_json` (with
`default=str`) turns a datetime into its `str()` form, which denotes the
timestamp at full microsecond precision, and leaves ints as JSON numbers. -/
inductive JsonCell where
  | ts (usec : ℤ)
  | num (n : ℤ)
  deriving DecidableEq, Repr

/-- `save_to_json` on one `GlobalTable`: the namedtuple serializes as the
ordered 10-element JSON array, timestamps via `default=str`. -/
def save_global_table (g : GlobalTable) : List JsonCell :=
  [.ts g.start_ts, .ts g.end_ts, .num g.window_count, .num g.sub_count_avg,
   .num g.sub_count_max, .num g.samp_count_avg, .num g.samp_count_max,
   .num g.samp_sub_count_avg, .num g.samp_sub_count_max, .num g.threshold_suggested]

/-- `save_to_json` over a whole global-tables map. -/
def save_global_tables (g : Tables GlobalTable) : Tables (List JsonCell) :=
  fun d0 d1 => (g d0 d1).map save_global_table

/-- `datetime.strptime(table[i][:19], "%Y-%m-%d %H:%M:%S")`: the 19-character
prefix of `str(datetime)` drops any fractional part, so the parsed value is
the timestamp truncated down to whole seconds.  A non-timestamp cell would
raise in the source and yields `none` here. -/
def parse_ts : JsonCell → Option ℤ
  | .ts u => some (u.fdiv 1000000 * 1000000)
  | .num _ => none

/-- The per-row body of `TwoIndexTwoDimensionAnalyzer.get_global_tables_from_file`:
positions 0 and 1 are parsed as timestamps, positions 2–9 are taken as the
remaining eight int fields in order.  A row of any other shape would raise in
the source and yields `none` here. -/
def global_table_from_row : List JsonCell → Option GlobalTable
  | [c0, c1, .num wc, .num sca, .num scm, .num pca, .num pcm,
     .num ssca, .num sscm, .num th] =>
      match parse_ts c0, parse_ts c1 with
      | some s, some e =>
          some { start_ts := s, end_ts := e, window_count := wc,
                 sub_count_avg := sca, sub_count_max := scm,
                 samp_count_avg := pca, samp_count_max := pcm,
                 samp_sub_count_avg := ssca, samp_sub_count_max := sscm,
                 threshold_suggested := th }
      | _, _ => none
  | _ => none

/-- `TwoIndexTwoDimensionAnalyzer.get_global_tables_from_file` over the
persisted map. -/
def get_global_tables_from_file (j : Tables (List JsonCell)) : Tables GlobalTable :=
  fun d0 d1 => (j d0 d1).bind global_table_from_row

/-! ### Helper lemmas -/

theorem is_peak_eq_true_iff (l : LocalTableStats) (g : GlobalTableStats) :
    is_peak l g = true ↔
      (g.threshold ≤ l.sub_count ∧
        ((4/5 : ℚ) * (g.samp_sub_count_max : ℚ) < l.samp_sub_count_mean ∨
          (1/2 : ℚ) < l.samp_sub_ratio ∨
          (l.samp_sub_count_mean < (l.samp_sub_count_max : ℚ) ∧
            l.samp_sub_count_var <
              ((l.samp_sub_count_max : ℚ) - l.samp_sub_count_mean) ^ 2))) := by
  unfold is_peak
  split
  next hlt =>
    simp only [Bool.false_eq_true, false_iff, not_and]
    intro hle
    exact absurd hlt (not_lt.mpr hle)
  next hge =>
    simp only [PEAK_GLOBAL_COUNT_WEIGHT, PEAK_MIN_SAMP_SUB_RATIO, Bool.or_eq_true,
      decide_eq_true_eq, gt_iff_lt]
    constructor
    · intro h
      exact ⟨not_lt.mp hge, or_assoc.mp h⟩
    · intro h
      exact or_assoc.mpr h.2

/-! ### Claims -/

/-- C1: a (dim0,dim1) pair that has both local-table statistics `L` and
global-table statistics `G` is reported by `get_peaks` exactly when
`L.sub_count ≥ G.threshold` and at least one of (a) the window's mean
per-sample submission count exceeds `0.8` times the global historical
per-sample max, (b) the dominant-sample ratio exceeds `0.5`, (c) the
window's max per-sample count exceeds its mean plus its standard deviation
(stated in the exactly equivalent squared form, the embedding carrying the
variance); in particular a pair below the volume gate is never reported. -/
theorem get_peaks_reported_iff (g : Tables GlobalTable) (w : Tables LocalTable)
    (t : Option ℤ) (d0 d1 : String) (L : LocalTableStats) (G : GlobalTableStats)
    (hL : get_local_tables_stats w d0 d1 = some L)
    (hG : get_global_tables_stats g t d0 d1 = some G) :
    ((get_peaks g w t d0 d1).isSome ↔
      (G.threshold ≤ L.sub_count ∧
        ((4/5 : ℚ) * (G.samp_sub_count_max : ℚ) < L.samp_sub_count_mean ∨
          (1/2 : ℚ) < L.samp_sub_ratio ∨
          (L.samp_sub_count_mean < (L.samp_sub_count_max : ℚ) ∧
            L.samp_sub_count_var <
              ((L.samp_sub_count_max : ℚ) - L.samp_sub_count_mean) ^ 2)))) ∧
    (L.sub_count < G.threshold → get_peaks g w t d0 d1 = none) := by
  have hpk : get_peaks g w t d0 d1 =
      if is_peak L G then
        some { sub_count := L.sub_count
               samp_count := L.samp_count
               samp_sub_count_max := L.samp_sub_count_max
               samp_sub_count_mean := L.samp_sub_count_mean
               samp_sub_count_var := L.samp_sub_count_var
               samp_sub_ratio := L.samp_sub_ratio
               global_samp_sub_count_max := G.samp_sub_count_max
               global_threshold_suggested := G.threshold }
      else none := by
    unfold get_peaks
    rw [hL, hG]
  constructor
  · rw [hpk, ← is_peak_eq_true_iff L G]
    cases hb : is_peak L G <;> simp [hb]
  · intro hlt
    have hfalse : is_peak L G = false := by
      unfold is_peak
      rw [if_pos hlt]
    rw [hpk, hfalse]
    simp

/-- C2: when the analysis window's start precedes its end, refreshing is
idempotent in the window (`refresh (refresh G W) W = refresh G W` pointwise);
in particular a pair whose baseline interval already covers the window
(`start_ts < baseline.end_ts`) keeps its existing baseline entry unchanged. -/
theorem refresh_global_tables_idempotent (a : Analyzer) (h : a.start_ts < a.end_ts)
    (g : Tables GlobalTable) (w : Tables LocalTable) :
    (∀ d0 d1, refresh_global_tables a (refresh_global_tables a g w) w d0 d1 =
        refresh_global_tables a g w d0 d1) ∧
    (∀ d0 d1 gt lt, g d0 d1 = some gt → w d0 d1 = some lt →
        a.start_ts < gt.end_ts → refresh_global_tables a g w d0 d1 = some gt) := by
  constructor
  · intro d0 d1
    cases hg : g d0 d1 with
    | none =>
      cases hw : w d0 d1 with
      | none => simp [refresh_global_tables, hg, hw]
      | some lt => simp [refresh_global_tables, hg, hw, infer_global_table, h]
    | some gt =>
      cases hw : w d0 d1 with
      | none => simp [refresh_global_tables, hg, hw]
      | some lt =>
        by_cases hc : a.start_ts < gt.end_ts
        · simp [refresh_global_tables, hg, hw, hc]
        · simp [refresh_global_tables, hg, hw, hc, update_global_table, h]
  · intro d0 d1 gt lt hg hw hc
    simp [refresh_global_tables, hg, hw, hc]

/-- C3: a pair present in the old baseline always survives a refresh, and its
`window_count`, the three `*_max` fields and `threshold_suggested` are all
monotonically non-decreasing, whichever refresh case applies. -/
theorem refresh_global_tables_monotone (a : Analyzer) (g : Tables GlobalTable)
    (w : Tables LocalTable) (d0 d1 : String) (gt : GlobalTable)
    (hg : g d0 d1 = some gt) :
    ∃ gt2, refresh_global_tables a g w d0 d1 = some gt2 ∧
      gt.window_count ≤ gt2.window_count ∧
      gt.sub_count_max ≤ gt2.sub_count_max ∧
      gt.samp_count_max ≤ gt2.samp_count_max ∧
      gt.samp_sub_count_max ≤ gt2.samp_sub_count_max ∧
      gt.threshold_suggested ≤ gt2.threshold_suggested := by
  cases hw : w d0 d1 with
  | none =>
    exact ⟨gt, by simp [refresh_global_tables, hg, hw], le_refl _, le_refl _,
      le_refl _, le_refl _, le_refl _⟩
  | some lt =>
    by_cases hc : a.start_ts < gt.end_ts
    · exact ⟨gt, by simp [refresh_global_tables, hg, hw, hc], le_refl _, le_refl _,
        le_refl _, le_refl _, le_refl _⟩
    · refine ⟨update_global_table a gt lt, by simp [refresh_global_tables, hg, hw, hc],
        ?_, ?_, ?_, ?_, ?_⟩
      · show gt.window_count ≤ gt.window_count + 1
        omega
      · exact le_max_left _ _
      · exact le_max_left _ _
      · exact le_max_left _ _
      · exact le_max_left _ _

/-- C4: merging a baseline entry with a genuinely new window (the window's
start not earlier than the baseline's `end_ts`) increments `window_count`,
updates each `*_avg` as the window-count-weighted running mean rounded to the
nearest integer, takes each `*_max` as the max of old and new, extends
`end_ts` to the window's end, and suggests `max(old threshold_suggested,
new sub_count_avg)`; the window values are the window's submission count,
its distinct-sample count and their rounded ratio. -/
theorem refresh_global_tables_merge_fields (a : Analyzer) (g : Tables GlobalTable)
    (w : Tables LocalTable) (d0 d1 : String) (gt : GlobalTable) (lt : LocalTable)
    (hg : g d0 d1 = some gt) (hw : w d0 d1 = some lt)
    (hnew : gt.end_ts ≤ a.start_ts) :
    ∃ gt2, refresh_global_tables a g w d0 d1 = some gt2 ∧
      gt2.window_count = gt.window_count + 1 ∧
      gt2.sub_count_avg =
        pyRound (((gt.sub_count_avg * gt.window_count + lt.subCount : ℤ) : ℚ) /
          ((gt.window_count + 1 : ℤ) : ℚ)) ∧
      gt2.samp_count_avg =
        pyRound (((gt.samp_count_avg * gt.window_count + lt.sampCount : ℤ) : ℚ) /
          ((gt.window_count + 1 : ℤ) : ℚ)) ∧
      gt2.samp_sub_count_avg =
        pyRound (((gt.samp_sub_count_avg * gt.window_count + lt.sampSubCount : ℤ) : ℚ) /
          ((gt.window_count + 1 : ℤ) : ℚ)) ∧
      gt2.sub_count_max = max gt.sub_count_max lt.subCount ∧
      gt2.samp_count_max = max gt.samp_count_max lt.sampCount ∧
      gt2.samp_sub_count_max = max gt.samp_sub_count_max lt.sampSubCount ∧
      gt2.end_ts = a.end_ts ∧
      gt2.threshold_suggested = max gt.threshold_suggested gt2.sub_count_avg := by
  refine ⟨update_global_table a gt lt, ?_, rfl, rfl, rfl, rfl, rfl, rfl, rfl, rfl, rfl⟩
  simp [refresh_global_tables, hg, hw, not_lt.mpr hnew]

/-- C5: a pair with a local table but no baseline entry gets a synthesized
baseline entry with `window_count = 1`, each `*_avg` and `*_max` equal to the
single window's value (the per-sample ratio rounded, and zero when the
window has zero samples), and `threshold_suggested` equal to the max of the
window's submission count and the configured per-dimension-value threshold,
taken as `0` when the dimension value is not configured. -/
theorem refresh_global_tables_infer_fields (a : Analyzer) (g : Tables GlobalTable)
    (w : Tables LocalTable) (d0 d1 : String) (lt : LocalTable)
    (hg : g d0 d1 = none) (hw : w d0 d1 = some lt) :
    ∃ gt2, refresh_global_tables a g w d0 d1 = some gt2 ∧
      gt2.window_count = 1 ∧
      gt2.sub_count_avg = lt.subCount ∧
      gt2.sub_count_max = lt.subCount ∧
      gt2.samp_count_avg = lt.sampCount ∧
      gt2.samp_count_max = lt.sampCount ∧
      gt2.samp_sub_count_avg =
        (if lt.sampCount = 0 then 0
          else pyRound ((lt.subCount : ℚ) / (lt.sampCount : ℚ))) ∧
      gt2.samp_sub_count_max = gt2.samp_sub_count_avg ∧
      gt2.threshold_suggested =
        max lt.subCount ((a.dimThresholds.lookup d0).getD 0) := by
  refine ⟨infer_global_table a lt (getDimensionThreshold a.dimThresholds d0),
    ?_, rfl, rfl, rfl, rfl, rfl, rfl, rfl, rfl⟩
  simp [refresh_global_tables, hg, hw]

/-- C10: on the merge path (baseline and genuinely new window both present)
the refreshed entry keeps the old baseline entry's `start_ts` unchanged:
merging extends only the end of the validity interval. -/
theorem refresh_global_tables_merge_start_ts (a : Analyzer) (g : Tables GlobalTable)
    (w : Tables LocalTable) (d0 d1 : String) (gt : GlobalTable) (lt : LocalTable)
    (hg : g d0 d1 = some gt) (hw : w d0 d1 = some lt)
    (hnew : gt.end_ts ≤ a.start_ts) :
    ∃ gt2, refresh_global_tables a g w d0 d1 = some gt2 ∧
      gt2.start_ts = gt.start_ts := by
  refine ⟨update_global_table a gt lt, ?_, rfl⟩
  simp [refresh_global_tables, hg, hw, not_lt.mpr hnew]

/-- C6 (amended): `get_global_tables_stats` produces one entry per pair of
the input whose `samp_sub_count_max` passes through unchanged and whose
`threshold` equals the caller-supplied override whenever a nonzero override
is given; when no override is given, or the override is `0` (falsy in the
source's `threshold or threshold_suggested`), the threshold is the pair's
`threshold_suggested`. -/
theorem get_global_tables_stats_fields (g : Tables GlobalTable) (t : Option ℤ)
    (d0 d1 : String) (gt : GlobalTable) (h : g d0 d1 = some gt) :
    ∃ gs, get_global_tables_stats g t d0 d1 = some gs ∧
      gs.samp_sub_count_max = gt.samp_sub_count_max ∧
      (t ≠ none → t ≠ some 0 → some gs.threshold = t) ∧
      ((t = none ∨ t = some 0) → gs.threshold = gt.threshold_suggested) := by
  refine ⟨{ samp_sub_count_max := gt.samp_sub_count_max
            threshold := pyOrInt t gt.threshold_suggested },
    by simp [get_global_tables_stats, h], rfl, ?_, ?_⟩
  · intro hne h0
    cases t with
    | none => exact absurd rfl hne
    | some v =>
      have hv : v ≠ 0 := fun hv => h0 (by rw [hv])
      simp [pyOrInt, hv]
  · intro hc
    cases hc with
    | inl h2 => rw [h2]; simp [pyOrInt]
    | inr h2 => rw [h2]; simp [pyOrInt]

/-- C7: the dominant-sample ratio of a local table's statistics is the
window's max per-sample count divided by its submission count, rounded to
two decimals, when `sub_count` strictly exceeds the minimum-volume floor
(`LOCAL_MIN_COUNT = 50`), and `0` otherwise — including when `sub_count`
equals the floor exactly. -/
theorem get_local_tables_stats_ratio_spec (w : Tables LocalTable) (d0 d1 : String)
    (L : LocalTableStats) (h : get_local_tables_stats w d0 d1 = some L) :
    LOCAL_MIN_COUNT = 50 ∧
    (LOCAL_MIN_COUNT < L.sub_count →
      L.samp_sub_ratio = pyRound2 ((L.samp_sub_count_max : ℚ) / (L.sub_count : ℚ))) ∧
    (L.sub_count ≤ LOCAL_MIN_COUNT → L.samp_sub_ratio = 0) := by
  simp only [get_local_tables_stats, Option.map_eq_some'] at h
  obtain ⟨tbl, -, rfl⟩ := h
  refine ⟨rfl, ?_, ?_⟩
  · intro hgt
    have hgt2 : LOCAL_MIN_COUNT < tbl.subCount := hgt
    show (if LOCAL_MIN_COUNT < tbl.subCount then _ else (0 : ℚ)) = _
    rw [if_pos hgt2]
    rfl
  · intro hle
    have hle2 : tbl.subCount ≤ LOCAL_MIN_COUNT := hle
    show (if LOCAL_MIN_COUNT < tbl.subCount then _ else (0 : ℚ)) = 0
    rw [if_neg (not_lt.mpr hle2)]

/-- C8: degenerate windows are recoverable in `get_local_tables_stats`: with
zero distinct samples the per-sample mean and max are both `0`, and with
fewer than two distinct samples the per-sample standard deviation is `0`
(the embedding carries its square, the variance); every averaging step is a
total function, the zero-divisor cases being defined to these values. -/
theorem get_local_tables_stats_degenerate (w : Tables LocalTable) (d0 d1 : String)
    (L : LocalTableStats) (h : get_local_tables_stats w d0 d1 = some L) :
    (L.samp_count = 0 → L.samp_sub_count_mean = 0 ∧ L.samp_sub_count_max = 0) ∧
    (L.samp_count < 2 → L.samp_sub_count_var = 0) := by
  simp only [get_local_tables_stats, Option.map_eq_some'] at h
  obtain ⟨tbl, -, rfl⟩ := h
  constructor
  · intro h0
    have hlen : (tbl.dedup.length : ℤ) = 0 := h0
    have hnil : tbl.dedup = [] := List.length_eq_zero.mp (by exact_mod_cast hlen)
    obtain ⟨ded, cr⟩ := tbl
    replace hnil : ded = [] := hnil
    subst hnil
    exact ⟨rfl, rfl⟩
  · intro h2
    have hlen : (tbl.dedup.length : ℤ) < 2 := h2
    have hlt : (tbl.dedup.map Prod.snd).length < 2 := by
      rw [List.length_map]
      exact_mod_cast hlen
    show (if (tbl.dedup.map Prod.snd).length < 2 then (0 : ℚ) else _) = 0
    rw [if_pos hlt]

/-- C9: persisting a global-tables map in the 10-element ordered row format
(timestamps as whole-second `str(datetime)` strings, truncated to whole
seconds on read) and reloading it with `get_global_tables_from_file` yields
the identical `GlobalTable` for every dimension pair. -/
theorem save_load_global_tables_roundtrip (g : Tables GlobalTable)
    (h : ∀ d0 d1 gt, g d0 d1 = some gt →
        gt.start_ts % 1000000 = 0 ∧ gt.end_ts % 1000000 = 0) :
    ∀ d0 d1, get_global_tables_from_file (save_global_tables g) d0 d1 = g d0 d1 := by
  intro d0 d1
  cases hg : g d0 d1 with
  | none => simp [get_global_tables_from_file, save_global_tables, hg]
  | some gt =>
    obtain ⟨h1, h2⟩ := h d0 d1 gt hg
    have hs : gt.start_ts.fdiv 1000000 * 1000000 = gt.start_ts := by
      rw [Int.fdiv_eq_ediv _ (by norm_num)]
      exact Int.ediv_mul_cancel (Int.dvd_of_emod_eq_zero h1)
    have he : gt.end_ts.fdiv 1000000 * 1000000 = gt.end_ts := by
      rw [Int.fdiv_eq_ediv _ (by norm_num)]
      exact Int.ediv_mul_cancel (Int.dvd_of_emod_eq_zero h2)
    simp [get_global_tables_from_file, save_global_tables, hg, save_global_table,
      global_table_from_row, parse_ts, hs, he]

/-! ### Concrete tables and witnesses -/

/-- A window with twenty submissions over two samples, ten each. -/
def ltW : LocalTable := { dedup := [("s1", 10), ("s2", 10)], cross := [] }

/-- A window with sixty-one submissions over two samples. -/
def ltBig : LocalTable := { dedup := [("s1", 40), ("s2", 21)], cross := [] }

/-- A window with no distinct samples at all. -/
def ltEmpty : LocalTable := { dedup := [], cross := [] }

/-- A baseline entry valid over the first day since the epoch. -/
def gtW : GlobalTable :=
  { start_ts := 0, end_ts := 86400000000, window_count := 1, sub_count_avg := 5,
    sub_count_max := 5, samp_count_avg := 3, samp_count_max := 3,
    samp_sub_count_avg := 2, samp_sub_count_max := 0, threshold_suggested := 10 }

def gW : Tables GlobalTable := fun _ _ => some gtW

def gNone : Tables GlobalTable := fun _ _ => none

def wW : Tables LocalTable := fun _ _ => some ltW

def wBig : Tables LocalTable := fun _ _ => some ltBig

def wEmpty : Tables LocalTable := fun _ _ => some ltEmpty

/-- An analyzer whose window is the first day since the epoch. -/
def aWin : Analyzer :=
  { start_ts := 0, end_ts := 86400000000, dimThresholds := [("malicious", 90)] }

/-- An analyzer over a later day: its window starts after `gtW`'s interval. -/
def aMerge : Analyzer :=
  { start_ts := 90000000000, end_ts := 176400000000, dimThresholds := [] }

/-- C6 counterexample: with the explicit override threshold `0` supplied, the
produced stats entry's threshold is the baseline's `threshold_suggested`
(`10`), not the supplied override `0`. -/
theorem get_global_tables_stats_zero_override_counterexample :
    get_global_tables_stats gW (some 0) "malicious" "pdf" =
      some { samp_sub_count_max := 0, threshold := 10 } ∧ (10 : ℤ) ≠ (0 : ℤ) :=
  ⟨rfl, by decide⟩

/-- C1 witness at the concrete window `ltW` and baseline `gtW`. -/
theorem get_peaks_reported_iff_witness :
    ((get_peaks gW wW none "malicious" "pdf").isSome ↔
      ((10 : ℤ) ≤ (localTableStats ltW).sub_count ∧
        ((4/5 : ℚ) * ((0 : ℤ) : ℚ) < (localTableStats ltW).samp_sub_count_mean ∨
          (1/2 : ℚ) < (localTableStats ltW).samp_sub_ratio ∨
          ((localTableStats ltW).samp_sub_count_mean <
              ((localTableStats ltW).samp_sub_count_max : ℚ) ∧
            (localTableStats ltW).samp_sub_count_var <
              (((localTableStats ltW).samp_sub_count_max : ℚ) -
                (localTableStats ltW).samp_sub_count_mean) ^ 2)))) ∧
    ((localTableStats ltW).sub_count < 10 →
      get_peaks gW wW none "malicious" "pdf" = none) :=
  get_peaks_reported_iff gW wW none "malicious" "pdf" (localTableStats ltW)
    { samp_sub_count_max := 0, threshold := 10 } rfl rfl

/-- C2 witness: idempotence at a concrete analyzer, baseline and window. -/
theorem refresh_global_tables_idempotent_witness :
    refresh_global_tables aWin (refresh_global_tables aWin gW wW) wW "malicious" "pdf" =
      refresh_global_tables aWin gW wW "malicious" "pdf" :=
  (refresh_global_tables_idempotent aWin (by decide) gW wW).1 "malicious" "pdf"

/-- C3 witness: monotone fields at a concrete refresh. -/
theorem refresh_global_tables_monotone_witness :
    ∃ gt2, refresh_global_tables aWin gW wW "malicious" "pdf" = some gt2 ∧
      gtW.window_count ≤ gt2.window_count ∧
      gtW.sub_count_max ≤ gt2.sub_count_max ∧
      gtW.samp_count_max ≤ gt2.samp_count_max ∧
      gtW.samp_sub_count_max ≤ gt2.samp_sub_count_max ∧
      gtW.threshold_suggested ≤ gt2.threshold_suggested :=
  refresh_global_tables_monotone aWin gW wW "malicious" "pdf" gtW rfl

/-- C4 witness: the merge-path field equations at a concrete refresh whose
window starts after the baseline's interval. -/
theorem refresh_global_tables_merge_fields_witness :
    ∃ gt2, refresh_global_tables aMerge gW wW "malicious" "pdf" = some gt2 ∧
      gt2.window_count = gtW.window_count + 1 ∧
      gt2.sub_count_avg =
        pyRound (((gtW.sub_count_avg * gtW.window_count + ltW.subCount : ℤ) : ℚ) /
          ((gtW.window_count + 1 : ℤ) : ℚ)) ∧
      gt2.samp_count_avg =
        pyRound (((gtW.samp_count_avg * gtW.window_count + ltW.sampCount : ℤ) : ℚ) /
          ((gtW.window_count + 1 : ℤ) : ℚ)) ∧
      gt2.samp_sub_count_avg =
        pyRound (((gtW.samp_sub_count_avg * gtW.window_count + ltW.sampSubCount : ℤ) : ℚ) /
          ((gtW.window_count + 1 : ℤ) : ℚ)) ∧
      gt2.sub_count_max = max gtW.sub_count_max ltW.subCount ∧
      gt2.samp_count_max = max gtW.samp_count_max ltW.sampCount ∧
      gt2.samp_sub_count_max = max gtW.samp_sub_count_max ltW.sampSubCount ∧
      gt2.end_ts = aMerge.end_ts ∧
      gt2.threshold_suggested = max gtW.threshold_suggested gt2.sub_count_avg :=
  refresh_global_tables_merge_fields aMerge gW wW "malicious" "pdf" gtW ltW
    rfl rfl (by decide)

/-- C5 witness: the inferred baseline at a pair without any baseline entry. -/
theorem refresh_global_tables_infer_fields_witness :
    ∃ gt2, refresh_global_tables aWin gNone wW "malicious" "pdf" = some gt2 ∧
      gt2.window_count = 1 ∧
      gt2.sub_count_avg = ltW.subCount ∧
      gt2.sub_count_max = ltW.subCount ∧
      gt2.samp_count_avg = ltW.sampCount ∧
      gt2.samp_count_max = ltW.sampCount ∧
      gt2.samp_sub_count_avg =
        (if ltW.sampCount = 0 then 0
          else pyRound ((ltW.subCount : ℚ) / (ltW.sampCount : ℚ))) ∧
      gt2.samp_sub_count_max = gt2.samp_sub_count_avg ∧
      gt2.threshold_suggested =
        max ltW.subCount ((aWin.dimThresholds.lookup "malicious").getD 0) :=
  refresh_global_tables_infer_fields aWin gNone wW "malicious" "pdf" ltW rfl rfl

/-- C6 witness: a nonzero override threshold is used verbatim. -/
theorem get_global_tables_stats_fields_witness :
    ∃ gs, get_global_tables_stats gW (some 3) "malicious" "pdf" = some gs ∧
      gs.samp_sub_count_max = gtW.samp_sub_count_max ∧
      ((some 3 : Option ℤ) ≠ none → (some 3 : Option ℤ) ≠ some 0 →
        some gs.threshold = some 3) ∧
      (((some 3 : Option ℤ) = none ∨ (some 3 : Option ℤ) = some 0) →
        gs.threshold = gtW.threshold_suggested) :=
  get_global_tables_stats_fields gW (some 3) "malicious" "pdf" gtW rfl

/-- C7 witness: the ratio equations at a high-volume concrete window. -/
theorem get_local_tables_stats_ratio_spec_witness :
    LOCAL_MIN_COUNT = 50 ∧
    (LOCAL_MIN_COUNT < (localTableStats ltBig).sub_count →
      (localTableStats ltBig).samp_sub_ratio =
        pyRound2 (((localTableStats ltBig).samp_sub_count_max : ℚ) /
          ((localTableStats ltBig).sub_count : ℚ))) ∧
    ((localTableStats ltBig).sub_count ≤ LOCAL_MIN_COUNT →
      (localTableStats ltBig).samp_sub_ratio = 0) :=
  get_local_tables_stats_ratio_spec wBig "malicious" "pdf" (localTableStats ltBig) rfl

/-- C8 witness: the degenerate-window equations at an empty concrete window. -/
theorem get_local_tables_stats_degenerate_witness :
    ((localTableStats ltEmpty).samp_count = 0 →
      (localTableStats ltEmpty).samp_sub_count_mean = 0 ∧
      (localTableStats ltEmpty).samp_sub_count_max = 0) ∧
    ((localTableStats ltEmpty).samp_count < 2 →
      (localTableStats ltEmpty).samp_sub_count_var = 0) :=
  get_local_tables_stats_degenerate wEmpty "malicious" "pdf" (localTableStats ltEmpty) rfl

/-- C9 witness: the round trip at a concrete whole-second baseline map. -/
theorem save_load_global_tables_roundtrip_witness :
    get_global_tables_from_file (save_global_tables gW) "malicious" "pdf" =
      gW "malicious" "pdf" :=
  save_load_global_tables_roundtrip gW
    (by
      intro d0 d1 gt h
      rw [show gt = gtW from (Option.some.inj h).symm]
      exact ⟨by decide, by decide⟩)
    "malicious" "pdf"

/-- C10 witness: the merge path keeps `start_ts` at a concrete refresh. -/
theorem refresh_global_tables_merge_start_ts_witness :
    ∃ gt2, refresh_global_tables aMerge gW wW "malicious" "pdf" = some gt2 ∧
      gt2.start_ts = gtW.start_ts :=
  refresh_global_tables_merge_start_ts aMerge gW wW "malicious" "pdf" gtW ltW
    rfl rfl (by decide)
